import Mathlib

/-!
Verification of the `fba` CLI initialization/provisioning workflow
(`backend/cli.py` of fastapi-practices/fba-slim).

The Python source is shallowly embedded below.  Pure control flow is
translated directly; the external collaborators the CLI calls into
(database driver, redis client, plugin registry, filesystem) are passed in
as explicit environment records, so that every claim about the CLI's own
logic is quantified over the collaborators' behaviour.  Side effects are
recorded as explicit event traces.
-/

namespace FbaCli

/-- Modelled from the spec: `backend.common.enums.DataBaseType` is not under
`src/`; the spec fixes exactly two SQL dialects (dialect-A = MySQL and
dialect-B = PostgreSQL). -/
inductive DataBaseType
  | mysql
  | postgresql
deriving DecidableEq, Repr

/-- Modelled from the spec: `backend.common.enums.PrimaryKeyType` is not under
`src/`; the spec fixes exactly two primary-key modes (autoincrement and
distributed snowflake ids). -/
inductive PrimaryKeyType
  | autoincrement
  | snowflake
deriving DecidableEq, Repr

/-- Outcome of one CLI workflow step: normal return, or `cappa.Exit` carrying a
message and an exit code. -/
inductive CliOutcome
  | ok
  | exit (msg : String) (code : Nat)
deriving DecidableEq, Repr

/-- ASCII lowering, the model of Python `str.lower()` as used on the `y` / `n`
prompt answers (`cli.py` lines 190 and 234). -/
def pyLower (s : String) : String :=
  String.mk (s.data.map Char.toLower)

/-! ## Database Provisioner (`create_database_if_not_exists`, cli.py 105-161)

The dialect-specific query strings are built exactly as in the source
(f-strings over the settings).  `create_database_queries` records, in order,
the queries issued on the administrative connection after the existence
check returned `ex` (cli.py 144-153). -/

/-- The settings fields read by `create_database_if_not_exists`. -/
structure ProvisionSettings where
  DATABASE_TYPE : DataBaseType
  DATABASE_SCHEMA : String
  DATABASE_CHARSET : String
deriving DecidableEq, Repr

/-- Existence-check query (cli.py 118 and 133). -/
def check_sql (s : ProvisionSettings) : String :=
  match s.DATABASE_TYPE with
  | DataBaseType.mysql => "SHOW DATABASES LIKE \x27" ++ s.DATABASE_SCHEMA ++ "\x27"
  | DataBaseType.postgresql =>
      "SELECT 1 FROM pg_database WHERE datname = \x27" ++ s.DATABASE_SCHEMA ++ "\x27"

/-- Terminate-connections query: `None` for MySQL (cli.py 109), set only in the
PostgreSQL branch (cli.py 134-137). -/
def terminate_sql (s : ProvisionSettings) : Option String :=
  match s.DATABASE_TYPE with
  | DataBaseType.mysql => none
  | DataBaseType.postgresql =>
      some ("SELECT pg_terminate_backend(pid) FROM pg_stat_activity WHERE datname = \x27"
        ++ s.DATABASE_SCHEMA ++ "\x27 AND pid <> pg_backend_pid()")

/-- Drop query (cli.py 119 and 138). -/
def drop_sql (s : ProvisionSettings) : String :=
  match s.DATABASE_TYPE with
  | DataBaseType.mysql => "DROP DATABASE IF EXISTS \x60" ++ s.DATABASE_SCHEMA ++ "\x60"
  | DataBaseType.postgresql => "DROP DATABASE IF EXISTS " ++ s.DATABASE_SCHEMA

/-- Create query (cli.py 120-123 and 139). -/
def create_sql (s : ProvisionSettings) : String :=
  match s.DATABASE_TYPE with
  | DataBaseType.mysql =>
      "CREATE DATABASE \x60" ++ s.DATABASE_SCHEMA ++ "\x60 CHARACTER SET "
        ++ s.DATABASE_CHARSET ++ " COLLATE " ++ s.DATABASE_CHARSET ++ "_unicode_ci"
  | DataBaseType.postgresql => "CREATE DATABASE " ++ s.DATABASE_SCHEMA

/-- The ordered list of queries `create_database_if_not_exists` issues on the
administrative connection, given that the existence check returned `ex`
(cli.py 144-153): first the check itself, then, when the database exists,
the terminate query (when the dialect defines one) followed by the drop,
and finally the create. -/
def create_database_queries (s : ProvisionSettings) (ex : Bool) : List String :=
  check_sql s ::
    ((if ex then
        (match terminate_sql s with
          | some t => [t]
          | none => []) ++ [drop_sql s]
      else []) ++ [create_sql s])

/-! ## Script Runner (`execute_sql_scripts`, cli.py 360-370)

`async_db_session.begin()` (from `backend.database.db`, not under `src/`) is
modelled from the spec as a transaction scoped to the whole call: the state
passed in is committed to the fold result when every statement succeeds, and
is returned unchanged (rollback) when parsing or any statement raises. -/

/-- External collaborators of the Script Runner: `parse_sql_script` from
`backend.utils.file_ops` and statement execution by the database driver,
both abstracted as functions; `σ` is the database state. -/
structure ScriptEnv (σ : Type) where
  parse : String → Except String (List String)
  exec : String → σ → Except String σ

/-- The statement loop of cli.py 364-365: execute each parsed statement in
file order on the open transaction, stopping at the first error. -/
def runStmts {σ : Type} (exec : String → σ → Except String σ) :
    List String → σ → Except String σ
  | [], db => Except.ok db
  | stmt :: rest, db =>
    match exec stmt db with
    | Except.ok db2 => runStmts exec rest db2
    | Except.error e => Except.error e

/-- `execute_sql_scripts` (cli.py 360-370): parse the script, run all
statements inside one transaction; on success the transaction commits, on
any error the transaction rolls back (state unchanged) and
`cappa.Exit(f\x27SQL 脚本执行失败：\x7be\x7d\x27, code=1)` is raised. -/
def execute_sql_scripts {σ : Type} (env : ScriptEnv σ) (sql_scripts : String)
    (db : σ) : σ × CliOutcome :=
  match env.parse sql_scripts with
  | Except.error e => (db, CliOutcome.exit ("SQL 脚本执行失败：" ++ e) 1)
  | Except.ok stmts =>
    match runStmts env.exec stmts db with
    | Except.ok db2 => (db2, CliOutcome.ok)
    | Except.error e => (db, CliOutcome.exit ("SQL 脚本执行失败：" ++ e) 1)

/-! ## Script-list resolution (`get_sql_scripts`, cli.py 334-357)

`get_plugins` / `get_plugin_sql` come from `backend.plugin.tools`, which the
spec declares an external collaborator (the Plugin Registry, consumed, not
specified); they and the filesystem existence check are environment
functions.  Paths are strings relative to `BASE_PATH`. -/

/-- Environment read by `get_sql_scripts`. -/
structure ScriptsEnv where
  DATABASE_TYPE : DataBaseType
  DATABASE_PK_MODE : PrimaryKeyType
  fileExists : String → Bool
  plugins : List String
  pluginSql : String → DataBaseType → PrimaryKeyType → Option String

/-- `db_dir` (cli.py 336-340). -/
def db_dir (e : ScriptsEnv) : String :=
  if DataBaseType.mysql = e.DATABASE_TYPE then "sql/mysql" else "sql/postgresql"

/-- `main_sql_file` (cli.py 341-345). -/
def main_sql_file (e : ScriptsEnv) : String :=
  if PrimaryKeyType.autoincrement = e.DATABASE_PK_MODE then
    db_dir e ++ "/init_test_data.sql"
  else
    db_dir e ++ "/init_snowflake_test_data.sql"

/-- The plugin loop of cli.py 352-355: append each installed plugin's resolved
script, in enumeration order, skipping plugins that resolve to nothing. -/
def pluginScriptsLoop (e : ScriptsEnv) : List String → List String
  | [] => []
  | p :: rest =>
    match e.pluginSql p e.DATABASE_TYPE e.DATABASE_PK_MODE with
    | some sqlPath => sqlPath :: pluginScriptsLoop e rest
    | none => pluginScriptsLoop e rest

/-- `get_sql_scripts` (cli.py 334-357): the main seed script when its file
exists, followed by the plugin scripts. -/
def get_sql_scripts (e : ScriptsEnv) : List String :=
  (if e.fileExists (main_sql_file e) then [main_sql_file e] else [])
    ++ pluginScriptsLoop e e.plugins

/-! ## Initialization Orchestrator (`init`, cli.py 200-255)

A run is recorded as a trace of completed steps (an event is appended only
when the step it names succeeded), together with the final database state
and the outcome.  `redis_client.delete_prefix`, `drop_tables` and
`create_tables` come from modules outside `src/`; per the spec they are
external collaborators and are abstracted as fallible environment
functions.  An exception from any of them is caught by the
`except Exception` block (cli.py 252-253) and re-raised as
`cappa.Exit(f\x27初始化失败：\x7be\x7d\x27, code=1)`; a `cappa.Exit` already
raised by `execute_sql_scripts` propagates with its own message, and in
either case the run terminates with exit code 1. -/

/-- Observable events of the initialization workflows. -/
inductive Ev
  | promptDb
  | cancelDbNote
  | promptInit
  | cancelInitNote
  | provision
  | delPrefix (p : String)
  | dropTables
  | createTables
  | runScript (path : String)
deriving DecidableEq, Repr

/-- Message wrapper of cli.py 253. -/
def initFailMsg (m : String) : String := "初始化失败：" ++ m

/-- Environment of `init`: the prompt answer, the four settings prefixes, the
redis / schema collaborators and the Script Runner environment. -/
structure InitEnv (σ : Type) where
  initAnswer : String
  jwtUserPrefix : String
  tokenExtraPrefix : String
  tokenPrefix : String
  tokenRefreshPrefix : String
  redisDel : String → Except String Unit
  dropTablesFn : σ → Except String σ
  createTablesFn : σ → Except String σ
  scriptsEnv : ScriptsEnv
  script : ScriptEnv σ

/-- Sequencing of two recorded steps: when the first returns normally its
trace is kept and the second runs on the resulting state; when it exits,
the exception propagates and the second never runs. -/
def andThen {σ : Type} (r : List Ev × σ × CliOutcome)
    (f : σ → List Ev × σ × CliOutcome) : List Ev × σ × CliOutcome :=
  match r with
  | (t, db, CliOutcome.ok) =>
    let r2 := f db
    (t ++ r2.1, r2.2)
  | (t, db, CliOutcome.exit m c) => (t, db, CliOutcome.exit m c)

/-- One `redis_client.delete_prefix` call (cli.py 238-241). -/
def delStep {σ : Type} (e : InitEnv σ) (p : String) (db : σ) :
    List Ev × σ × CliOutcome :=
  match e.redisDel p with
  | Except.ok _ => ([Ev.delPrefix p], db, CliOutcome.ok)
  | Except.error m => ([], db, CliOutcome.exit (initFailMsg m) 1)

/-- `drop_tables()` (cli.py 243). -/
def dropStep {σ : Type} (e : InitEnv σ) (db : σ) : List Ev × σ × CliOutcome :=
  match e.dropTablesFn db with
  | Except.ok db2 => ([Ev.dropTables], db2, CliOutcome.ok)
  | Except.error m => ([], db, CliOutcome.exit (initFailMsg m) 1)

/-- `create_tables()` (cli.py 244). -/
def createStep {σ : Type} (e : InitEnv σ) (db : σ) : List Ev × σ × CliOutcome :=
  match e.createTablesFn db with
  | Except.ok db2 => ([Ev.createTables], db2, CliOutcome.ok)
  | Except.error m => ([], db, CliOutcome.exit (initFailMsg m) 1)

/-- One iteration of the script loop (cli.py 247-249): `cappa.Exit` raised by
`execute_sql_scripts` derives from `SystemExit`, so it propagates past the
`except Exception` block unwrapped. -/
def scriptStep {σ : Type} (env : ScriptEnv σ) (s : String) (db : σ) :
    List Ev × σ × CliOutcome :=
  match execute_sql_scripts env s db with
  | (db2, CliOutcome.ok) => ([Ev.runScript s], db2, CliOutcome.ok)
  | (db2, CliOutcome.exit m c) => ([], db2, CliOutcome.exit m c)

/-- The script loop of cli.py 247-249. -/
def scriptsLoop {σ : Type} (env : ScriptEnv σ) :
    List String → σ → List Ev × σ × CliOutcome
  | [], db => ([], db, CliOutcome.ok)
  | s :: rest, db => andThen (scriptStep env s db) (scriptsLoop env rest)

/-- The body of the confirmed branch of `init` (cli.py 235-251): the four
cache-prefix deletions in source order, then drop tables, then create
tables, then the resolved scripts in list order. -/
def initBody {σ : Type} (e : InitEnv σ) (db : σ) : List Ev × σ × CliOutcome :=
  andThen (delStep e e.jwtUserPrefix db) fun db =>
  andThen (delStep e e.tokenExtraPrefix db) fun db =>
  andThen (delStep e e.tokenPrefix db) fun db =>
  andThen (delStep e e.tokenRefreshPrefix db) fun db =>
  andThen (dropStep e db) fun db =>
  andThen (createStep e db) fun db =>
  scriptsLoop e.script (get_sql_scripts e.scriptsEnv) db

/-- `init` (cli.py 200-255): prompt, then either run the body or print the
cancellation note and return normally. -/
def initRun {σ : Type} (e : InitEnv σ) (db : σ) : List Ev × σ × CliOutcome :=
  if pyLower e.initAnswer = "y" then
    let r := initBody e db
    (Ev.promptInit :: r.1, r.2)
  else
    ([Ev.promptInit, Ev.cancelInitNote], db, CliOutcome.ok)

/-- The full ordered step sequence of a completely successful confirmed
`init` run. -/
def initFullSeq {σ : Type} (e : InitEnv σ) : List Ev :=
  [Ev.delPrefix e.jwtUserPrefix, Ev.delPrefix e.tokenExtraPrefix,
   Ev.delPrefix e.tokenPrefix, Ev.delPrefix e.tokenRefreshPrefix,
   Ev.dropTables, Ev.createTables]
    ++ (get_sql_scripts e.scriptsEnv).map Ev.runScript

/-! ## `auto_init` (cli.py 164-197) -/

/-- Environment of `auto_init`: the `setup_env_file` result, the answer to the
provisioning confirmation, the `create_database_if_not_exists` result, and
the environment of the `init` it finishes with. -/
structure AutoEnv (σ : Type) where
  envFileOk : Bool
  dbAnswer : String
  provisionOk : Bool
  initEnv : InitEnv σ

/-- `auto_init` (cli.py 164-197): step 1 runs `setup_env_file` (failure exits
with code 1); step 2 asks the provisioning confirmation and, on `y`, calls
`create_database_if_not_exists` (failure exits with code 1), while on any
other answer it prints the cancellation note; step 3 always calls
`init()`. -/
def auto_init {σ : Type} (e : AutoEnv σ) (db : σ) : List Ev × σ × CliOutcome :=
  if e.envFileOk = false then
    ([], db, CliOutcome.exit ".env 文件配置失败" 1)
  else
    let tail :=
      if pyLower e.dbAnswer = "y" then
        if e.provisionOk then
          let r := initRun e.initEnv db
          (Ev.provision :: r.1, r.2)
        else
          ([Ev.provision], db, CliOutcome.exit "数据库创建失败" 1)
      else
        let r := initRun e.initEnv db
        (Ev.cancelDbNote :: r.1, r.2)
    (Ev.promptDb :: tail.1, tail.2)

/-! ## Plugin installation (`install_plugin`, cli.py 302-331)

`install_zip_plugin`, `install_git_plugin` and `get_plugin_sql` live outside
`src/` and are abstracted as environment functions.  The two cappa
arguments arrive as `str | None`; Python truthiness makes both `None` and
the empty string falsy. -/

/-- Python truthiness of a `str | None` value. -/
def truthy : Option String → Bool
  | none => false
  | some s => !s.isEmpty

/-- Observable actions of `install_plugin` (filesystem / network / script
execution). -/
inductive PluginEv
  | installZip (file : String)
  | installGit (url : String)
  | execScript (path : String)
deriving DecidableEq, Repr

/-- External collaborators of `install_plugin`. -/
structure PluginEnv (σ : Type) where
  installZipFn : String → Except String String
  installGitFn : String → Except String String
  pluginSql : String → DataBaseType → PrimaryKeyType → Option String
  script : ScriptEnv σ

/-- The `try` block of cli.py 317-331: install from the zip path or the git
url (an installation error is caught and re-raised as `cappa.Exit` with
code 1), then resolve the plugin's SQL script and, unless `no_sql` is set,
execute it through the Script Runner. -/
def install_plugin_try {σ : Type} (e : PluginEnv σ) (path repo_url : Option String)
    (no_sql : Bool) (db_type : DataBaseType) (pk_type : PrimaryKeyType) (db : σ) :
    List PluginEv × σ × CliOutcome :=
  match (if truthy path then
           match e.installZipFn (path.getD "") with
           | Except.ok name => Except.ok (some name)
           | Except.error m => Except.error m
         else Except.ok none : Except String (Option String)) with
  | Except.error m => ([], db, CliOutcome.exit m 1)
  | Except.ok zipName =>
    match (if truthy repo_url then
             match e.installGitFn (repo_url.getD "") with
             | Except.ok name => Except.ok (some name)
             | Except.error m => Except.error m
           else Except.ok none : Except String (Option String)) with
    | Except.error m =>
        ((if truthy path then [PluginEv.installZip (path.getD "")] else []), db,
          CliOutcome.exit m 1)
    | Except.ok gitName =>
      let installTrace :=
        (if truthy path then [PluginEv.installZip (path.getD "")] else [])
          ++ (if truthy repo_url then [PluginEv.installGit (repo_url.getD "")] else [])
      let plugin_name := (match gitName with
        | some n => some n
        | none => zipName).getD ""
      match e.pluginSql plugin_name db_type pk_type with
      | some sql_file =>
        if no_sql then (installTrace, db, CliOutcome.ok)
        else
          match execute_sql_scripts e.script sql_file db with
          | (db2, CliOutcome.ok) =>
              (installTrace ++ [PluginEv.execScript sql_file], db2, CliOutcome.ok)
          | (db2, CliOutcome.exit m c) => (installTrace, db2, CliOutcome.exit m c)
      | none => (installTrace, db, CliOutcome.ok)

/-- `install_plugin` (cli.py 302-331): the two precondition checks run before
any installation work, each failing with `cappa.Exit(code=1)`. -/
def install_plugin {σ : Type} (e : PluginEnv σ) (path repo_url : Option String)
    (no_sql : Bool) (db_type : DataBaseType) (pk_type : PrimaryKeyType) (db : σ) :
    List PluginEv × σ × CliOutcome :=
  if truthy path = false ∧ truthy repo_url = false then
    ([], db, CliOutcome.exit "path 或 repo_url 必须指定其中一项" 1)
  else if truthy path = true ∧ truthy repo_url = true then
    ([], db, CliOutcome.exit "path 和 repo_url 不能同时指定" 1)
  else
    install_plugin_try e path repo_url no_sql db_type pk_type db

/-! ## Secret generation (`setup_env_file`, cli.py 66-68)

`secrets.token_urlsafe` and `secrets.token_hex` are Python standard-library
collaborators.  Modelled from the spec: `token_urlsafe(32)` is the URL-safe
base64 encoding (padding stripped) of 32 random bytes and `token_hex(32)`
is the lowercase hex encoding of 32 random bytes; the random byte draws are
environment inputs here.  Bytes are naturals below 256. -/

/-- Lowercase hexadecimal alphabet: digits `0`-`9` then letters `a`-`f`. -/
def hexAlphabet : List Char :=
  (List.range 16).map fun n => if n < 10 then Char.ofNat (48 + n) else Char.ofNat (87 + n)

/-- Hex digit of a value below 16. -/
def hexDigitChar (n : Nat) : Char := hexAlphabet.getD n '0'

/-- Value of a hex digit. -/
def hexVal (c : Char) : Nat := hexAlphabet.indexOf c

/-- Hex encoding, two digits per byte, most-significant first. -/
def hexEncodeBytes : List Nat → List Char
  | [] => []
  | b :: rest => hexDigitChar (b / 16) :: hexDigitChar (b % 16) :: hexEncodeBytes rest

/-- Hex decoding, the inverse of `hexEncodeBytes`. -/
def hexDecode : List Char → List Nat
  | c1 :: c2 :: rest => (hexVal c1 * 16 + hexVal c2) :: hexDecode rest
  | _ => []

/-- The URL-safe base64 alphabet (RFC 4648 §5): `A`-`Z`, `a`-`z`, `0`-`9`,
then minus and underscore. -/
def b64Alphabet : List Char :=
  ((List.range 26).map fun n => Char.ofNat (65 + n))
    ++ ((List.range 26).map fun n => Char.ofNat (97 + n))
    ++ ((List.range 10).map fun n => Char.ofNat (48 + n))
    ++ [Char.ofNat 45, Char.ofNat 95]

/-- Character of a sextet value below 64. -/
def b64Char (n : Nat) : Char := b64Alphabet.getD n 'A'

/-- Value of a URL-safe base64 character. -/
def b64Val (c : Char) : Nat := b64Alphabet.indexOf c

/-- URL-safe base64 encoding without padding (what
`secrets.token_urlsafe` produces): three bytes become four characters, a
final remainder of one or two bytes becomes two or three characters. -/
def b64urlEncodeBytes : List Nat → List Char
  | [] => []
  | [a] => [b64Char (a / 4), b64Char (a % 4 * 16)]
  | [a, b] => [b64Char (a / 4), b64Char (a % 4 * 16 + b / 16), b64Char (b % 16 * 4)]
  | a :: b :: d :: rest =>
      b64Char (a / 4) :: b64Char (a % 4 * 16 + b / 16)
        :: b64Char (b % 16 * 4 + d / 64) :: b64Char (d % 64)
        :: b64urlEncodeBytes rest

/-- URL-safe base64 decoding without padding, the inverse of
`b64urlEncodeBytes`. -/
def b64urlDecodeChars : List Char → List Nat
  | x :: y :: z :: w :: rest =>
      (b64Val x * 4 + b64Val y / 16) :: (b64Val y % 16 * 16 + b64Val z / 4)
        :: (b64Val z % 4 * 64 + b64Val w) :: b64urlDecodeChars rest
  | [x, y] => [b64Val x * 4 + b64Val y / 16]
  | [x, y, z] => [b64Val x * 4 + b64Val y / 16, b64Val y % 16 * 16 + b64Val z / 4]
  | _ => []

/-- Modelled from the spec: `secrets.token_urlsafe` applied to the given
random bytes. -/
def token_urlsafe (bytes : List Nat) : String := String.mk (b64urlEncodeBytes bytes)

/-- Modelled from the spec: `secrets.token_hex` applied to the given random
bytes. -/
def token_hex (bytes : List Nat) : String := String.mk (hexEncodeBytes bytes)

/-- The random byte draws consumed by cli.py 67-68. -/
structure EnvSetupRandom where
  tokenBytes : List Nat
  operaBytes : List Nat

/-- The two secrets generated by `setup_env_file` (cli.py 66-68): the
token-signing secret from `secrets.token_urlsafe(32)` and the
operation-log encryption secret from `secrets.token_hex(32)`. -/
def setup_env_secrets (r : EnvSetupRandom) : String × String :=
  (token_urlsafe r.tokenBytes, token_hex r.operaBytes)

/-! ## Concrete demonstration environments

Small executable instances of the collaborator environments, used to
evaluate the theorems on concrete inputs.  The database state is the list
of statements committed so far. -/

/-- A two-script filesystem: `ok1.sql` holds one good statement, `bad.sql`
holds five statements of which the third is broken. -/
def demoParse : String → Except String (List String) := fun p =>
  if p = "ok1.sql" then Except.ok ["INSERT 1"]
  else if p = "bad.sql" then
    Except.ok ["INSERT 2", "INSERT 3", "BROKEN", "INSERT 4", "INSERT 5"]
  else Except.error "no such file"

/-- A driver that commits every statement except the broken one. -/
def demoExec : String → List String → Except String (List String) := fun stmt db =>
  if stmt = "BROKEN" then Except.error "syntax error at line 3"
  else Except.ok (db ++ [stmt])

/-- Script Runner environment over the demo filesystem and driver. -/
def demoScriptEnv : ScriptEnv (List String) where
  parse := demoParse
  exec := demoExec

/-- Plugin registry for the spec scenario of claim C3: no main script, two
plugins, only the second resolving to a script. -/
def demoScriptsEnvC3 : ScriptsEnv where
  DATABASE_TYPE := DataBaseType.postgresql
  DATABASE_PK_MODE := PrimaryKeyType.autoincrement
  fileExists := fun _ => false
  plugins := ["pa", "pb"]
  pluginSql := fun p _ _ => if p = "pb" then some "plugin/pb/sql/postgresql/init.sql" else none

/-- Plugin registry resolving to the two demo scripts, the second of which
fails. -/
def demoScriptsEnvInit : ScriptsEnv where
  DATABASE_TYPE := DataBaseType.postgresql
  DATABASE_PK_MODE := PrimaryKeyType.autoincrement
  fileExists := fun _ => false
  plugins := ["p1", "p2"]
  pluginSql := fun p _ _ =>
    if p = "p1" then some "ok1.sql" else if p = "p2" then some "bad.sql" else none

/-- Confirmed `init` environment in which every collaborator succeeds but the
second resolved script fails on its third statement. -/
def demoInitEnv : InitEnv (List String) where
  initAnswer := "y"
  jwtUserPrefix := "fba:user:"
  tokenExtraPrefix := "fba:token_extra:"
  tokenPrefix := "fba:token:"
  tokenRefreshPrefix := "fba:refresh_token:"
  redisDel := fun _ => Except.ok ()
  dropTablesFn := fun _ => Except.ok []
  createTablesFn := fun db => Except.ok db
  scriptsEnv := demoScriptsEnvInit
  script := demoScriptEnv

/-- Auto-mode environment where the operator confirms provisioning. -/
def demoAutoEnv : AutoEnv (List String) where
  envFileOk := true
  dbAnswer := "y"
  provisionOk := true
  initEnv := demoInitEnv

/-- Auto-mode environment where the operator declines provisioning. -/
def demoAutoEnvDecline : AutoEnv (List String) where
  envFileOk := true
  dbAnswer := "n"
  provisionOk := true
  initEnv := demoInitEnv

/-- Plugin-installation environment. -/
def demoPluginEnv : PluginEnv (List String) where
  installZipFn := fun _ => Except.ok "demo_plugin"
  installGitFn := fun _ => Except.ok "demo_plugin"
  pluginSql := fun _ _ _ => none
  script := demoScriptEnv

/-- PostgreSQL provisioning settings. -/
def demoProvisionPg : ProvisionSettings where
  DATABASE_TYPE := DataBaseType.postgresql
  DATABASE_SCHEMA := "fba"
  DATABASE_CHARSET := "utf8mb4"

/-- MySQL provisioning settings. -/
def demoProvisionMy : ProvisionSettings where
  DATABASE_TYPE := DataBaseType.mysql
  DATABASE_SCHEMA := "fba"
  DATABASE_CHARSET := "utf8mb4"

/-- 32 concrete byte values. -/
def demoBytes : List Nat := List.range 32

/-! ## Helper lemmas -/

/-- A failing `execute_sql_scripts` call leaves the database state exactly as
it was (the transaction of `async_db_session.begin()` rolls back). -/
theorem execute_sql_scripts_exit_state {σ : Type} (env : ScriptEnv σ)
    (p : String) (db : σ) (m : String) (c : Nat)
    (h : (execute_sql_scripts env p db).2 = CliOutcome.exit m c) :
    execute_sql_scripts env p db = (db, CliOutcome.exit m c) := by
  unfold execute_sql_scripts at h ⊢
  cases hp : env.parse p with
  | error e => simp [hp] at h ⊢; exact h
  | ok stmts =>
    cases hr : runStmts env.exec stmts db with
    | ok db2 => simp [hp, hr] at h
    | error e => simp [hp, hr] at h ⊢; exact h

/-- Trace specification of `andThen`: when both sides emit their full traces
on success and a prefix of them otherwise, so does the composite. -/
theorem andThen_trace_spec {σ : Type} (r : List Ev × σ × CliOutcome)
    (f : σ → List Ev × σ × CliOutcome) (A B : List Ev)
    (hA1 : r.2.2 = CliOutcome.ok → r.1 = A) (hA2 : r.1 <+: A)
    (hB1 : ∀ db, (f db).2.2 = CliOutcome.ok → (f db).1 = B)
    (hB2 : ∀ db, (f db).1 <+: B) :
    ((andThen r f).2.2 = CliOutcome.ok → (andThen r f).1 = A ++ B)
      ∧ (andThen r f).1 <+: A ++ B := by
  obtain ⟨t, db, o⟩ := r
  cases o with
  | ok =>
    have ht : t = A := hA1 rfl
    subst ht
    constructor
    · intro h
      simp only [andThen] at h ⊢
      rw [hB1 db h]
    · simp only [andThen]
      obtain ⟨u, hu⟩ := hB2 db
      exact ⟨u, by rw [List.append_assoc, hu]⟩
  | exit m c =>
    constructor
    · intro h
      simp [andThen] at h
    · simp only [andThen]
      exact hA2.trans (List.prefix_append A B)

/-- Trace specification of `delStep`. -/
theorem delStep_trace_spec {σ : Type} (e : InitEnv σ) (p : String) (db : σ) :
    ((delStep e p db).2.2 = CliOutcome.ok → (delStep e p db).1 = [Ev.delPrefix p])
      ∧ (delStep e p db).1 <+: [Ev.delPrefix p] := by
  unfold delStep
  cases e.redisDel p with
  | ok u => simp
  | error m => simp

/-- Trace specification of `dropStep`. -/
theorem dropStep_trace_spec {σ : Type} (e : InitEnv σ) (db : σ) :
    ((dropStep e db).2.2 = CliOutcome.ok → (dropStep e db).1 = [Ev.dropTables])
      ∧ (dropStep e db).1 <+: [Ev.dropTables] := by
  unfold dropStep
  cases e.dropTablesFn db with
  | ok db2 => simp
  | error m => simp

/-- Trace specification of `createStep`. -/
theorem createStep_trace_spec {σ : Type} (e : InitEnv σ) (db : σ) :
    ((createStep e db).2.2 = CliOutcome.ok → (createStep e db).1 = [Ev.createTables])
      ∧ (createStep e db).1 <+: [Ev.createTables] := by
  unfold createStep
  cases e.createTablesFn db with
  | ok db2 => simp
  | error m => simp

/-- Trace specification of `scriptStep`. -/
theorem scriptStep_trace_spec {σ : Type} (env : ScriptEnv σ) (s : String) (db : σ) :
    ((scriptStep env s db).2.2 = CliOutcome.ok → (scriptStep env s db).1 = [Ev.runScript s])
      ∧ (scriptStep env s db).1 <+: [Ev.runScript s] := by
  unfold scriptStep
  obtain ⟨db2, o⟩ := execute_sql_scripts env s db
  cases o with
  | ok => simp
  | exit m c => simp

/-- Trace specification of the script loop: exactly one `runScript` event per
successfully executed script, a prefix of the full list otherwise. -/
theorem scriptsLoop_trace_spec {σ : Type} (env : ScriptEnv σ) :
    ∀ (l : List String) (db : σ),
      ((scriptsLoop env l db).2.2 = CliOutcome.ok →
          (scriptsLoop env l db).1 = l.map Ev.runScript)
        ∧ (scriptsLoop env l db).1 <+: l.map Ev.runScript
  | [], db => by simp [scriptsLoop]
  | s :: rest, db => by
    have h := andThen_trace_spec (scriptStep env s db) (scriptsLoop env rest)
      [Ev.runScript s] (rest.map Ev.runScript)
      (scriptStep_trace_spec env s db).1 (scriptStep_trace_spec env s db).2
      (fun db2 => (scriptsLoop_trace_spec env rest db2).1)
      (fun db2 => (scriptsLoop_trace_spec env rest db2).2)
    simpa [scriptsLoop] using h

/-- Trace specification of the confirmed `init` body: the completed steps are
always an in-order prefix of the full step sequence, and on success they
are the whole of it. -/
theorem initBody_trace_spec {σ : Type} (e : InitEnv σ) (db : σ) :
    ((initBody e db).2.2 = CliOutcome.ok → (initBody e db).1 = initFullSeq e)
      ∧ (initBody e db).1 <+: initFullSeq e := by
  have h7 := fun db => scriptsLoop_trace_spec e.script (get_sql_scripts e.scriptsEnv) db
  have h6 := fun db => andThen_trace_spec (createStep e db) _ [Ev.createTables]
    ((get_sql_scripts e.scriptsEnv).map Ev.runScript)
    (createStep_trace_spec e db).1 (createStep_trace_spec e db).2
    (fun db2 => (h7 db2).1) (fun db2 => (h7 db2).2)
  have h5 := fun db => andThen_trace_spec (dropStep e db) _ [Ev.dropTables]
    ([Ev.createTables] ++ (get_sql_scripts e.scriptsEnv).map Ev.runScript)
    (dropStep_trace_spec e db).1 (dropStep_trace_spec e db).2
    (fun db2 => (h6 db2).1) (fun db2 => (h6 db2).2)
  have h4 := fun db => andThen_trace_spec (delStep e e.tokenRefreshPrefix db) _
    [Ev.delPrefix e.tokenRefreshPrefix]
    ([Ev.dropTables] ++ ([Ev.createTables]
      ++ (get_sql_scripts e.scriptsEnv).map Ev.runScript))
    (delStep_trace_spec e e.tokenRefreshPrefix db).1
    (delStep_trace_spec e e.tokenRefreshPrefix db).2
    (fun db2 => (h5 db2).1) (fun db2 => (h5 db2).2)
  have h3 := fun db => andThen_trace_spec (delStep e e.tokenPrefix db) _
    [Ev.delPrefix e.tokenPrefix]
    ([Ev.delPrefix e.tokenRefreshPrefix] ++ ([Ev.dropTables] ++ ([Ev.createTables]
      ++ (get_sql_scripts e.scriptsEnv).map Ev.runScript)))
    (delStep_trace_spec e e.tokenPrefix db).1
    (delStep_trace_spec e e.tokenPrefix db).2
    (fun db2 => (h4 db2).1) (fun db2 => (h4 db2).2)
  have h2 := fun db => andThen_trace_spec (delStep e e.tokenExtraPrefix db) _
    [Ev.delPrefix e.tokenExtraPrefix]
    ([Ev.delPrefix e.tokenPrefix] ++ ([Ev.delPrefix e.tokenRefreshPrefix]
      ++ ([Ev.dropTables] ++ ([Ev.createTables]
      ++ (get_sql_scripts e.scriptsEnv).map Ev.runScript))))
    (delStep_trace_spec e e.tokenExtraPrefix db).1
    (delStep_trace_spec e e.tokenExtraPrefix db).2
    (fun db2 => (h3 db2).1) (fun db2 => (h3 db2).2)
  have h1 := andThen_trace_spec (delStep e e.jwtUserPrefix db) _
    [Ev.delPrefix e.jwtUserPrefix] _
    (delStep_trace_spec e e.jwtUserPrefix db).1
    (delStep_trace_spec e e.jwtUserPrefix db).2
    (fun db2 => (h2 db2).1) (fun db2 => (h2 db2).2)
  simpa [initBody, initFullSeq] using h1

/-- Every `init` run opens with the schema-initialization confirmation
prompt. -/
theorem initRun_starts_with_prompt {σ : Type} (e : InitEnv σ) (db : σ) :
    ∃ t, (initRun e db).1 = Ev.promptInit :: t := by
  unfold initRun
  by_cases h : pyLower e.initAnswer = "y" <;> simp [h]

/-- `init` never issues the provisioning query. -/
theorem provision_not_mem_initRun {σ : Type} (e : InitEnv σ) (db : σ) :
    Ev.provision ∉ (initRun e db).1 := by
  have hbody : Ev.provision ∉ (initBody e db).1 := by
    intro hmem
    have hsub := (initBody_trace_spec e db).2.subset hmem
    simp only [initFullSeq, List.mem_append, List.mem_cons, List.mem_map,
      List.not_mem_nil] at hsub
    rcases hsub with h | ⟨a, _, h⟩ <;> simp_all
  unfold initRun
  by_cases h : pyLower e.initAnswer = "y" <;> simp [h, hbody]

/-- Running the script loop on `l1 ++ s :: l2` when every script of `l1`
succeeds and `s` fails: the `l1` commits stand, the loop stops at `s` with
its transaction rolled back. -/
theorem scriptsLoop_fail_after {σ : Type} (env : ScriptEnv σ) :
    ∀ (l1 : List String) (s : String) (l2 : List String) (db db1 : σ)
      (m : String),
      scriptsLoop env l1 db = (l1.map Ev.runScript, db1, CliOutcome.ok) →
      (execute_sql_scripts env s db1).2 = CliOutcome.exit m 1 →
      scriptsLoop env (l1 ++ s :: l2) db = (l1.map Ev.runScript, db1, CliOutcome.exit m 1)
  | [], s, l2, db, db1, m => by
    intro h1 h2
    have hdb : db = db1 := by
      have := congrArg (fun r => r.2.1) h1
      simpa using this
    subst hdb
    have hfail := execute_sql_scripts_exit_state env s db m 1 h2
    simp [scriptsLoop, scriptStep, hfail, andThen]
  | a :: rest, s, l2, db, db1, m => by
    intro h1 h2
    rw [List.cons_append]
    simp only [scriptsLoop] at h1 ⊢
    cases hx : execute_sql_scripts env a db with
    | mk db2 o =>
      cases o with
      | ok =>
        simp only [scriptStep, hx, andThen] at h1 ⊢
        have htr : (scriptsLoop env rest db2).1 = rest.map Ev.runScript := by
          have := congrArg Prod.fst h1
          simpa using this
        have hrest : scriptsLoop env rest db2 = (rest.map Ev.runScript, db1, CliOutcome.ok) := by
          have h22 := congrArg Prod.snd h1
          exact Prod.ext htr (by simpa using h22)
        rw [scriptsLoop_fail_after env rest s l2 db2 db1 m hrest h2]
        simp
      | exit mm cc =>
        simp only [scriptStep, hx, andThen] at h1
        have := congrArg (fun r => r.2.2) h1
        simp at this

/-- The plugin loop collects, in order, exactly the resolved scripts. -/
theorem pluginScriptsLoop_eq_filterMap (e : ScriptsEnv) :
    ∀ l : List String,
      pluginScriptsLoop e l
        = l.filterMap (fun p => e.pluginSql p e.DATABASE_TYPE e.DATABASE_PK_MODE)
  | [] => rfl
  | p :: rest => by
    simp only [pluginScriptsLoop, List.filterMap_cons]
    cases e.pluginSql p e.DATABASE_TYPE e.DATABASE_PK_MODE with
    | some sqlPath => simp [pluginScriptsLoop_eq_filterMap e rest]
    | none => simp [pluginScriptsLoop_eq_filterMap e rest]

/-- Hex digits decode back to their value. -/
theorem hexVal_hexDigitChar : ∀ n < 16, hexVal (hexDigitChar n) = n := by decide

/-- Base64 characters decode back to their sextet value. -/
theorem b64Val_b64Char : ∀ n < 64, b64Val (b64Char n) = n := by decide

/-- Hex encoding of bytes is injective: decoding recovers the bytes. -/
theorem hexDecode_hexEncodeBytes :
    ∀ bs : List Nat, (∀ x ∈ bs, x < 256) → hexDecode (hexEncodeBytes bs) = bs
  | [], _ => rfl
  | b :: rest, h => by
    have hb : b < 256 := h b (by simp)
    have h1 : hexVal (hexDigitChar (b / 16)) = b / 16 :=
      hexVal_hexDigitChar (b / 16) (by omega)
    have h2 : hexVal (hexDigitChar (b % 16)) = b % 16 :=
      hexVal_hexDigitChar (b % 16) (by omega)
    have hrest : hexDecode (hexEncodeBytes rest) = rest :=
      hexDecode_hexEncodeBytes rest (fun x hx => h x (by simp [hx]))
    simp only [hexEncodeBytes, hexDecode, h1, h2, hrest]
    congr 1
    omega

/-- Each byte contributes two hex characters. -/
theorem hexEncodeBytes_length :
    ∀ bs : List Nat, (hexEncodeBytes bs).length = 2 * bs.length
  | [] => rfl
  | _ :: rest => by
    simp only [hexEncodeBytes, List.length_cons, hexEncodeBytes_length rest]
    omega

/-- Length of the unpadded URL-safe base64 encoding. -/
theorem b64urlEncodeBytes_length :
    ∀ bs : List Nat, (b64urlEncodeBytes bs).length = (bs.length * 8 + 5) / 6
  | [] => rfl
  | [_] => by
    simp only [b64urlEncodeBytes, List.length_cons, List.length_nil]
  | [_, _] => by
    simp only [b64urlEncodeBytes, List.length_cons, List.length_nil]
  | _ :: _ :: _ :: rest => by
    simp only [b64urlEncodeBytes, List.length_cons, b64urlEncodeBytes_length rest]
    omega

/-- Unpadded URL-safe base64 decoding recovers the encoded bytes. -/
theorem b64urlDecode_b64urlEncodeBytes :
    ∀ bs : List Nat, (∀ x ∈ bs, x < 256) → b64urlDecodeChars (b64urlEncodeBytes bs) = bs
  | [], _ => rfl
  | [a], h => by
    have ha : a < 256 := h a (by simp)
    have h1 : b64Val (b64Char (a / 4)) = a / 4 := b64Val_b64Char (a / 4) (by omega)
    have h2 : b64Val (b64Char (a % 4 * 16)) = a % 4 * 16 := b64Val_b64Char _ (by omega)
    simp only [b64urlEncodeBytes, b64urlDecodeChars, h1, h2]
    congr 1
    omega
  | [a, b], h => by
    have ha : a < 256 := h a (by simp)
    have hb : b < 256 := h b (by simp)
    have h1 : b64Val (b64Char (a / 4)) = a / 4 := b64Val_b64Char (a / 4) (by omega)
    have h2 : b64Val (b64Char (a % 4 * 16 + b / 16)) = a % 4 * 16 + b / 16 :=
      b64Val_b64Char _ (by omega)
    have h3 : b64Val (b64Char (b % 16 * 4)) = b % 16 * 4 := b64Val_b64Char _ (by omega)
    simp only [b64urlEncodeBytes, b64urlDecodeChars, h1, h2, h3,
      List.cons.injEq, eq_self_iff_true, and_true]
    exact ⟨by omega, by omega⟩
  | a :: b :: d :: rest, h => by
    have ha : a < 256 := h a (by simp)
    have hb : b < 256 := h b (by simp)
    have hd : d < 256 := h d (by simp)
    have h1 : b64Val (b64Char (a / 4)) = a / 4 := b64Val_b64Char (a / 4) (by omega)
    have h2 : b64Val (b64Char (a % 4 * 16 + b / 16)) = a % 4 * 16 + b / 16 :=
      b64Val_b64Char _ (by omega)
    have h3 : b64Val (b64Char (b % 16 * 4 + d / 64)) = b % 16 * 4 + d / 64 :=
      b64Val_b64Char _ (by omega)
    have h4 : b64Val (b64Char (d % 64)) = d % 64 := b64Val_b64Char _ (by omega)
    have hrest : b64urlDecodeChars (b64urlEncodeBytes rest) = rest :=
      b64urlDecode_b64urlEncodeBytes rest (fun x hx => h x (by simp [hx]))
    simp only [b64urlEncodeBytes, b64urlDecodeChars, h1, h2, h3, h4, hrest,
      List.cons.injEq, eq_self_iff_true, and_true]
    exact ⟨by omega, by omega, by omega⟩

/-! ## Claims -/

/-- C1: every SQL script run through `execute_sql_scripts` has its parsed
statements executed in file order inside one database transaction: when
every statement succeeds the whole in-order fold commits, and when any
statement fails the effects of every earlier statement are rolled back,
leaving the database in its pre-script state. -/
theorem execute_sql_scripts_whole_script_atomicity {σ : Type} (env : ScriptEnv σ)
    (path : String) (db : σ) (stmts : List String)
    (hp : env.parse path = Except.ok stmts) :
    (∀ db2, runStmts env.exec stmts db = Except.ok db2 →
        execute_sql_scripts env path db = (db2, CliOutcome.ok))
      ∧ ∀ e, runStmts env.exec stmts db = Except.error e →
          execute_sql_scripts env path db
            = (db, CliOutcome.exit ("SQL 脚本执行失败：" ++ e) 1) := by
  constructor
  · intro db2 h
    simp [execute_sql_scripts, hp, h]
  · intro e h
    simp [execute_sql_scripts, hp, h]

/-- Witness for C1: a concrete one-statement script commits its effect. -/
theorem execute_sql_scripts_whole_script_atomicity_witness :
    execute_sql_scripts demoScriptEnv "ok1.sql" [] = (["INSERT 1"], CliOutcome.ok) :=
  (execute_sql_scripts_whole_script_atomicity demoScriptEnv "ok1.sql" []
    ["INSERT 1"] rfl).1 ["INSERT 1"] rfl

/-- C2: when the existence check of `create_database_if_not_exists` finds the
target database, the terminate-connections query runs first (for
PostgreSQL only; MySQL has none), then DROP DATABASE, then CREATE
DATABASE; when it finds nothing, only CREATE DATABASE runs after the
check. -/
theorem create_database_provisioning_order (s : ProvisionSettings) :
    (s.DATABASE_TYPE = DataBaseType.postgresql →
        ∃ t, terminate_sql s = some t
          ∧ create_database_queries s true
              = [check_sql s, t, drop_sql s, create_sql s])
      ∧ (s.DATABASE_TYPE = DataBaseType.mysql →
          terminate_sql s = none
            ∧ create_database_queries s true
                = [check_sql s, drop_sql s, create_sql s])
      ∧ create_database_queries s false = [check_sql s, create_sql s] := by
  obtain ⟨ty, sch, ch⟩ := s
  cases ty with
  | mysql =>
    refine ⟨fun h => by simp at h, fun _ => ⟨rfl, ?_⟩, rfl⟩
    simp [create_database_queries, terminate_sql]
  | postgresql =>
    refine ⟨fun _ => ⟨_, rfl, ?_⟩, fun h => by simp at h, rfl⟩
    simp [create_database_queries, terminate_sql]

/-- Witness for C2 at concrete PostgreSQL and MySQL settings. -/
theorem create_database_provisioning_order_witness :
    (∃ t, terminate_sql demoProvisionPg = some t
        ∧ create_database_queries demoProvisionPg true
            = [check_sql demoProvisionPg, t, drop_sql demoProvisionPg,
               create_sql demoProvisionPg])
      ∧ (terminate_sql demoProvisionMy = none
          ∧ create_database_queries demoProvisionMy true
              = [check_sql demoProvisionMy, drop_sql demoProvisionMy,
                 create_sql demoProvisionMy])
      ∧ create_database_queries demoProvisionPg false
          = [check_sql demoProvisionPg, create_sql demoProvisionPg] :=
  ⟨(create_database_provisioning_order demoProvisionPg).1 rfl,
   (create_database_provisioning_order demoProvisionMy).2.1 rfl,
   (create_database_provisioning_order demoProvisionPg).2.2⟩

/-- C3: `get_sql_scripts` returns exactly the main seed script when its file
exists, followed by each installed plugin's resolved seed script in
plugin-enumeration order, skipping plugins with no script; with the main
script absent and only the second of two plugins resolving, the result is
exactly that one entry. -/
theorem get_sql_scripts_resolution (e : ScriptsEnv) :
    get_sql_scripts e
        = (if e.fileExists (main_sql_file e) then [main_sql_file e] else [])
            ++ e.plugins.filterMap
                (fun p => e.pluginSql p e.DATABASE_TYPE e.DATABASE_PK_MODE)
      ∧ ∀ a b pb, e.fileExists (main_sql_file e) = false → e.plugins = [a, b] →
          e.pluginSql a e.DATABASE_TYPE e.DATABASE_PK_MODE = none →
          e.pluginSql b e.DATABASE_TYPE e.DATABASE_PK_MODE = some pb →
          get_sql_scripts e = [pb] := by
  constructor
  · simp [get_sql_scripts, pluginScriptsLoop_eq_filterMap e e.plugins]
  · intro a b pb hex hpl ha hb
    simp [get_sql_scripts, hex, hpl, pluginScriptsLoop, ha, hb]

/-- Witness for C3: the spec scenario, evaluated on a concrete registry. -/
theorem get_sql_scripts_resolution_witness :
    get_sql_scripts demoScriptsEnvC3 = ["plugin/pb/sql/postgresql/init.sql"] :=
  (get_sql_scripts_resolution demoScriptsEnvC3).2 "pa" "pb"
    "plugin/pb/sql/postgresql/init.sql" rfl rfl rfl rfl

/-- C4: in every confirmed run of `init`, the four cache-key prefix deletions
all complete before any schema work starts, then all tables are dropped,
then recreated, then the resolved scripts are executed in list order: the
completed steps always form an in-order prefix of this full sequence, and
exactly the full sequence when the run succeeds — so the sequence never
continues past the first failing step. -/
theorem init_confirmed_step_order {σ : Type} (e : InitEnv σ) (db : σ)
    (hc : pyLower e.initAnswer = "y") :
    (initRun e db).1 = Ev.promptInit :: (initBody e db).1
      ∧ (initBody e db).1 <+: initFullSeq e
      ∧ ((initRun e db).2.2 = CliOutcome.ok →
          (initBody e db).1 = initFullSeq e) := by
  have hrun : initRun e db = (Ev.promptInit :: (initBody e db).1, (initBody e db).2) := by
    simp [initRun, hc]
  refine ⟨by rw [hrun], (initBody_trace_spec e db).2, ?_⟩
  intro h
  rw [hrun] at h
  exact (initBody_trace_spec e db).1 h

/-- Witness for C4 at a concrete confirmed run. -/
theorem init_confirmed_step_order_witness :
    (initRun demoInitEnv []).1 = Ev.promptInit :: (initBody demoInitEnv []).1
      ∧ (initBody demoInitEnv []).1 <+: initFullSeq demoInitEnv
      ∧ ((initRun demoInitEnv []).2.2 = CliOutcome.ok →
          (initBody demoInitEnv []).1 = initFullSeq demoInitEnv) :=
  init_confirmed_step_order demoInitEnv [] rfl

/-- C5: bulk initialization has no cross-script atomicity: in a confirmed run
whose cache and schema steps all succeed, when every script of `l1`
commits and the next script `s` fails, the run stops there with the `l1`
commits still in place (state `db1`), the failing script's transaction
rolled back (the state is still `db1`), and exit status 1. -/
theorem init_no_cross_script_atomicity {σ : Type} (e : InitEnv σ)
    (db dbA dbB db1 : σ) (l1 l2 : List String) (s m : String)
    (hc : pyLower e.initAnswer = "y")
    (hd1 : e.redisDel e.jwtUserPrefix = Except.ok ())
    (hd2 : e.redisDel e.tokenExtraPrefix = Except.ok ())
    (hd3 : e.redisDel e.tokenPrefix = Except.ok ())
    (hd4 : e.redisDel e.tokenRefreshPrefix = Except.ok ())
    (hdrop : e.dropTablesFn db = Except.ok dbA)
    (hcreate : e.createTablesFn dbA = Except.ok dbB)
    (hs : get_sql_scripts e.scriptsEnv = l1 ++ s :: l2)
    (h1 : scriptsLoop e.script l1 dbB = (l1.map Ev.runScript, db1, CliOutcome.ok))
    (h2 : (execute_sql_scripts e.script s db1).2 = CliOutcome.exit m 1) :
    initRun e db
      = (Ev.promptInit :: Ev.delPrefix e.jwtUserPrefix
          :: Ev.delPrefix e.tokenExtraPrefix :: Ev.delPrefix e.tokenPrefix
          :: Ev.delPrefix e.tokenRefreshPrefix :: Ev.dropTables
          :: Ev.createTables :: l1.map Ev.runScript,
         db1, CliOutcome.exit m 1) := by
  have hloop := scriptsLoop_fail_after e.script l1 s l2 dbB db1 m h1 h2
  simp [initRun, hc, initBody, delStep, hd1, hd2, hd3, hd4, dropStep, hdrop,
    createStep, hcreate, andThen, hs, hloop]

/-- Witness for C5: the spec scenario — first script succeeds, second script
fails on its third statement; the first script's insert persists, the
second script's partial effects are gone, exit status is 1. -/
theorem init_no_cross_script_atomicity_witness :
    initRun demoInitEnv []
      = (Ev.promptInit :: Ev.delPrefix demoInitEnv.jwtUserPrefix
          :: Ev.delPrefix demoInitEnv.tokenExtraPrefix
          :: Ev.delPrefix demoInitEnv.tokenPrefix
          :: Ev.delPrefix demoInitEnv.tokenRefreshPrefix :: Ev.dropTables
          :: Ev.createTables :: (["ok1.sql"].map Ev.runScript),
         ["INSERT 1"], CliOutcome.exit "SQL 脚本执行失败：syntax error at line 3" 1) :=
  init_no_cross_script_atomicity demoInitEnv [] [] [] ["INSERT 1"]
    ["ok1.sql"] [] "bad.sql" "SQL 脚本执行失败：syntax error at line 3"
    rfl rfl rfl rfl rfl rfl rfl rfl rfl rfl

/-- Counterexample for C6 as stated: in a concrete auto-mode run (environment
step succeeded, provisioning confirmed and succeeded) the interactive
schema-initialization confirmation is still issued — auto mode does not
skip it. -/
theorem auto_init_schema_prompt_not_skipped :
    Ev.promptInit ∈ (auto_init demoAutoEnv []).1 := by decide

/-- C6 (amended): in auto mode there is no confirmation gate for the
environment-configuration step, and the workflow always opens step 2 with
the explicit database-provisioning confirmation (the first recorded
event); however the schema-initialization confirmation is not skipped:
whenever step 3 is reached — provisioning confirmed and successful, or
declined — the schema confirmation prompt is issued as well. -/
theorem auto_init_confirmation_gates {σ : Type} (e : AutoEnv σ) (db : σ)
    (h : e.envFileOk = true) :
    (∃ t, (auto_init e db).1 = Ev.promptDb :: t)
      ∧ (pyLower e.dbAnswer = "y" → e.provisionOk = true →
          ∃ t, (auto_init e db).1
            = Ev.promptDb :: Ev.provision :: Ev.promptInit :: t)
      ∧ (pyLower e.dbAnswer ≠ "y" →
          ∃ t, (auto_init e db).1
            = Ev.promptDb :: Ev.cancelDbNote :: Ev.promptInit :: t) := by
  obtain ⟨t0, ht0⟩ := initRun_starts_with_prompt e.initEnv db
  refine ⟨?_, ?_, ?_⟩
  · by_cases hy : pyLower e.dbAnswer = "y"
    · by_cases hp : e.provisionOk = true
      · exact ⟨Ev.provision :: (initRun e.initEnv db).1, by simp [auto_init, h, hy, hp]⟩
      · exact ⟨[Ev.provision], by simp [auto_init, h, hy, hp]⟩
    · exact ⟨Ev.cancelDbNote :: (initRun e.initEnv db).1, by simp [auto_init, h, hy]⟩
  · intro hy hp
    exact ⟨t0, by simp [auto_init, h, hy, hp, ht0]⟩
  · intro hy
    exact ⟨t0, by simp [auto_init, h, hy, ht0]⟩

/-- Witness for C6 (amended) at a concrete auto-mode environment. -/
theorem auto_init_confirmation_gates_witness :
    (∃ t, (auto_init demoAutoEnv []).1 = Ev.promptDb :: t)
      ∧ (pyLower demoAutoEnv.dbAnswer = "y" → demoAutoEnv.provisionOk = true →
          ∃ t, (auto_init demoAutoEnv []).1
            = Ev.promptDb :: Ev.provision :: Ev.promptInit :: t)
      ∧ (pyLower demoAutoEnv.dbAnswer ≠ "y" →
          ∃ t, (auto_init demoAutoEnv []).1
            = Ev.promptDb :: Ev.cancelDbNote :: Ev.promptInit :: t) :=
  auto_init_confirmation_gates demoAutoEnv [] rfl

/-- C7: `install_plugin` with both the archive path and the repository URL
supplied, or with neither supplied, fails with exit status 1 before any
installation, filesystem, network, or script action is performed (empty
action trace, database state untouched). -/
theorem install_plugin_precondition {σ : Type} (e : PluginEnv σ)
    (path repo_url : Option String) (no_sql : Bool) (dt : DataBaseType)
    (pt : PrimaryKeyType) (db : σ)
    (h : (truthy path = false ∧ truthy repo_url = false)
        ∨ (truthy path = true ∧ truthy repo_url = true)) :
    ∃ m, install_plugin e path repo_url no_sql dt pt db
        = ([], db, CliOutcome.exit m 1) := by
  rcases h with ⟨h1, h2⟩ | ⟨h1, h2⟩
  · exact ⟨"path 或 repo_url 必须指定其中一项", by simp [install_plugin, h1, h2]⟩
  · exact ⟨"path 和 repo_url 不能同时指定", by simp [install_plugin, h1, h2]⟩

/-- Witness for C7: both precondition violations at concrete arguments. -/
theorem install_plugin_precondition_witness :
    (∃ m, install_plugin demoPluginEnv none none false DataBaseType.postgresql
        PrimaryKeyType.autoincrement ([] : List String)
        = ([], [], CliOutcome.exit m 1))
      ∧ ∃ m, install_plugin demoPluginEnv (some "/tmp/p.zip")
          (some "https://example.com/p.git") false DataBaseType.postgresql
          PrimaryKeyType.autoincrement ([] : List String)
          = ([], [], CliOutcome.exit m 1) :=
  ⟨install_plugin_precondition demoPluginEnv none none false
      DataBaseType.postgresql PrimaryKeyType.autoincrement [] (Or.inl ⟨rfl, rfl⟩),
   install_plugin_precondition demoPluginEnv (some "/tmp/p.zip")
      (some "https://example.com/p.git") false DataBaseType.postgresql
      PrimaryKeyType.autoincrement [] (Or.inr ⟨rfl, rfl⟩)⟩

/-- Counterexample for C8 as stated: for a concrete failing script the
reported message carries the underlying error but not the failing
script's name. -/
theorem execute_sql_scripts_message_lacks_script_name :
    (execute_sql_scripts demoScriptEnv "bad.sql" []).2
        = CliOutcome.exit "SQL 脚本执行失败：syntax error at line 3" 1
      ∧ ¬ ("bad.sql".data <:+: "SQL 脚本执行失败：syntax error at line 3".data) := by
  exact ⟨rfl, by decide⟩

/-- C8 (amended): whenever a statement of a script fails during
`execute_sql_scripts`, the transaction is aborted (the pre-script state is
returned) and the reported error message is the fixed failure label
followed by the underlying error; the failing script's name is not added
to the message. -/
theorem execute_sql_scripts_error_reporting {σ : Type} (env : ScriptEnv σ)
    (path : String) (db : σ) (stmts : List String) (e : String)
    (hp : env.parse path = Except.ok stmts)
    (he : runStmts env.exec stmts db = Except.error e) :
    execute_sql_scripts env path db
      = (db, CliOutcome.exit ("SQL 脚本执行失败：" ++ e) 1) := by
  simp [execute_sql_scripts, hp, he]

/-- Witness for C8 (amended) at the concrete failing script. -/
theorem execute_sql_scripts_error_reporting_witness :
    execute_sql_scripts demoScriptEnv "bad.sql" []
      = ([], CliOutcome.exit ("SQL 脚本执行失败：" ++ "syntax error at line 3") 1) :=
  execute_sql_scripts_error_reporting demoScriptEnv "bad.sql" []
    ["INSERT 2", "INSERT 3", "BROKEN", "INSERT 4", "INSERT 5"]
    "syntax error at line 3" rfl rfl

/-- C9: the secrets generated during env setup encode exactly the 32 random
bytes drawn for each: the token-signing secret is unpadded URL-safe base64
(43 characters) decoding back to its 32 bytes, and the log-encryption
secret is the hex encoding (64 hex characters) decoding back to its 32
bytes. -/
theorem setup_env_secrets_encode_32_bytes (r : EnvSetupRandom)
    (h1 : r.tokenBytes.length = 32) (h2 : ∀ x ∈ r.tokenBytes, x < 256)
    (h3 : r.operaBytes.length = 32) (h4 : ∀ x ∈ r.operaBytes, x < 256) :
    (setup_env_secrets r).1.length = 43
      ∧ b64urlDecodeChars (setup_env_secrets r).1.data = r.tokenBytes
      ∧ (setup_env_secrets r).2.length = 64
      ∧ hexDecode (setup_env_secrets r).2.data = r.operaBytes := by
  refine ⟨?_, b64urlDecode_b64urlEncodeBytes r.tokenBytes h2, ?_,
    hexDecode_hexEncodeBytes r.operaBytes h4⟩
  · show (b64urlEncodeBytes r.tokenBytes).length = 43
    rw [b64urlEncodeBytes_length, h1]
  · show (hexEncodeBytes r.operaBytes).length = 64
    rw [hexEncodeBytes_length, h3]

/-- Witness for C9 at 32 concrete bytes. -/
theorem setup_env_secrets_encode_32_bytes_witness :
    (setup_env_secrets ⟨demoBytes, demoBytes⟩).1.length = 43
      ∧ b64urlDecodeChars (setup_env_secrets ⟨demoBytes, demoBytes⟩).1.data = demoBytes
      ∧ (setup_env_secrets ⟨demoBytes, demoBytes⟩).2.length = 64
      ∧ hexDecode (setup_env_secrets ⟨demoBytes, demoBytes⟩).2.data = demoBytes :=
  setup_env_secrets_encode_32_bytes ⟨demoBytes, demoBytes⟩
    (by decide) (by decide) (by decide) (by decide)

/-- C10: declining the database-provisioning confirmation in auto mode does
not abort the workflow: no provisioning query is issued, the cancellation
note is printed, and the workflow still proceeds to the
schema-initialization step against the existing database. -/
theorem auto_init_decline_proceeds {σ : Type} (e : AutoEnv σ) (db : σ)
    (h1 : e.envFileOk = true) (h2 : pyLower e.dbAnswer ≠ "y") :
    (auto_init e db).1 = Ev.promptDb :: Ev.cancelDbNote :: (initRun e.initEnv db).1
      ∧ (auto_init e db).2 = (initRun e.initEnv db).2
      ∧ Ev.provision ∉ (auto_init e db).1
      ∧ Ev.promptInit ∈ (auto_init e db).1 := by
  have htr : (auto_init e db).1
      = Ev.promptDb :: Ev.cancelDbNote :: (initRun e.initEnv db).1 := by
    simp [auto_init, h1, h2]
  have hst : (auto_init e db).2 = (initRun e.initEnv db).2 := by
    simp [auto_init, h1, h2]
  obtain ⟨t0, ht0⟩ := initRun_starts_with_prompt e.initEnv db
  refine ⟨htr, hst, ?_, ?_⟩
  · rw [htr]
    intro hmem
    rcases List.mem_cons.mp hmem with h | hmem2
    · exact absurd h (by simp)
    rcases List.mem_cons.mp hmem2 with h | hmem3
    · exact absurd h (by simp)
    exact provision_not_mem_initRun e.initEnv db hmem3
  · rw [htr, ht0]
    simp

/-- Witness for C10 at a concrete declined auto-mode run. -/
theorem auto_init_decline_proceeds_witness :
    (auto_init demoAutoEnvDecline []).1
        = Ev.promptDb :: Ev.cancelDbNote :: (initRun demoAutoEnvDecline.initEnv []).1
      ∧ (auto_init demoAutoEnvDecline []).2 = (initRun demoAutoEnvDecline.initEnv []).2
      ∧ Ev.provision ∉ (auto_init demoAutoEnvDecline []).1
      ∧ Ev.promptInit ∈ (auto_init demoAutoEnvDecline []).1 :=
  auto_init_decline_proceeds demoAutoEnvDecline [] rfl (by decide)

end FbaCli
